import Mathlib

/-!
Verification of the guidance command generator in
src/apmuas_traj_ros/scripts/guidance_publisher.py.

The script is single-threaded callback code over Python floats; we embed it
shallowly over the real numbers. Python lists of optional floats become
structures with Option fields; numpy primitives (arctan2, clip, deg2rad,
the float modulo operator) are given their exact real-number semantics.
The quaternion-to-Euler utility lives in rotation_utils, outside this
repository core; the spec treats it as an external pure collaborator, so the
pose callback takes it as an abstract function parameter.
-/

noncomputable section

open Real

/-- Python float modulo for a positive divisor: a true floored modulo whose
result has the sign of the divisor, so for b greater than 0 it lies in the
half-open interval from 0 to b. Embedded via the fractional part. -/
def pymod (a b : ℝ) : ℝ := b * Int.fract (a / b)

/-- Embedding of wrap_to_pi (guidance_publisher.py lines 39 to 49):
(angle + pi) mod (2 pi) minus pi. -/
def wrap_to_pi (angle : ℝ) : ℝ := pymod (angle + π) (2 * π) - π

/-- Embedding of yaw_enu_to_ned (lines 23 to 37): wrap of pi over 2 minus
the ENU yaw. -/
def yaw_enu_to_ned (yaw_enu : ℝ) : ℝ := wrap_to_pi (π / 2 - yaw_enu)

/-- Embedding of get_relative_ned_yaw_cmd (lines 51 to 58): the wrapped
difference between the inertial NED yaw command and the current NED yaw. -/
def get_relative_ned_yaw_cmd (current_ned_yaw inert_ned_yaw_cmd : ℝ) : ℝ :=
  wrap_to_pi (inert_ned_yaw_cmd - current_ned_yaw)

/-- Exact real semantics of numpy arctan2 of y over x: angle of the point
(x, y), range from minus pi exclusive to pi inclusive, with arctan2 0 0 = 0. -/
def np_arctan2 (y x : ℝ) : ℝ :=
  if 0 < x then Real.arctan (y / x)
  else if x < 0 then
    (if 0 ≤ y then Real.arctan (y / x) + π else Real.arctan (y / x) - π)
  else if 0 < y then π / 2
  else if y < 0 then -(π / 2)
  else 0

/-- Exact real semantics of numpy deg2rad: multiply by pi over 180. -/
def np_deg2rad (deg : ℝ) : ℝ := deg * (π / 180)

/-- Exact real semantics of numpy clip: the minimum of the upper bound and
the maximum of the value and the lower bound. -/
def np_clip (v lo hi : ℝ) : ℝ := min (max v lo) hi

/-- Embedding of the CtlTraj message fields the script fills (lines 164 to
169): paired roll, pitch, yaw arrays, a thrust triple, and an index. -/
structure CtlTraj where
  roll : List ℝ
  pitch : List ℝ
  yaw : List ℝ
  thrust : List ℝ
  idx : ℤ

/-- Embedding of the mutable node state of GuidancePublisher: the fixed
target list and the seven-slot current_state list whose entries start as
None (lines 92 to 106). Slot names follow the source comments. -/
structure GuidanceState where
  target_x : ℝ
  target_y : ℝ
  target_z : ℝ
  x : Option ℝ
  y : Option ℝ
  z : Option ℝ
  phi : Option ℝ
  theta : Option ℝ
  psi : Option ℝ
  airspeed : Option ℝ

/-- The state built by GuidancePublisher init: target hard-coded to
(-170, -170, 50), all seven current_state slots None (lines 92 to 106). -/
def initState : GuidanceState :=
  { target_x := -170, target_y := -170, target_z := 50,
    x := none, y := none, z := none,
    phi := none, theta := none, psi := none, airspeed := none }

/-- The fields of an Odometry message the callback reads: position,
orientation quaternion, linear twist (lines 112 to 130). -/
structure OdomMsg where
  px : ℝ
  py : ℝ
  pz : ℝ
  qx : ℝ
  qy : ℝ
  qz : ℝ
  qw : ℝ
  vx : ℝ
  vy : ℝ
  vz : ℝ

/-- Outcome of one call to calculate_trajectory: the early return when
current_state slot 0 is None, a Python TypeError when slot 0 is set but a
later slot read by the arithmetic is still None, or an emitted message. -/
inductive TrajResult where
  | noCommand : TrajResult
  | typeError : TrajResult
  | emit : CtlTraj → TrajResult

/-- Embedding of calculate_trajectory (lines 136 to 171). The guard checks
only slot 0; slots 1, 2 and 5 are then read unconditionally, so a state with
slot 0 set but one of those None would raise in Python, modelled as
typeError. Slots 3, 4, 6 and the printed dist are never read. -/
def calculate_trajectory (s : GuidanceState) : TrajResult :=
  match s.x with
  | none => .noCommand
  | some sx =>
    match s.y, s.z, s.psi with
    | some sy, some sz, some spsi =>
      let dx := s.target_x - sx
      let dy := s.target_y - sy
      let dz := s.target_z - sz
      let enu_yaw_rad := np_arctan2 dy dx
      let ned_yaw_rad := yaw_enu_to_ned enu_yaw_rad
      let ned_yaw_state := yaw_enu_to_ned spsi
      let rel_yaw_cmd := get_relative_ned_yaw_cmd ned_yaw_state ned_yaw_rad
      let roll_cmd := np_clip (0.5 * rel_yaw_cmd) (-(np_deg2rad 45)) (np_deg2rad 45)
      let pitch_cmd := np_clip (0.25 * dz) (-(np_deg2rad 15)) (np_deg2rad 10)
      let thrust_cmd : ℝ := 0.5
      .emit { roll := [roll_cmd, roll_cmd], pitch := [pitch_cmd, pitch_cmd],
              yaw := [rel_yaw_cmd, rel_yaw_cmd],
              thrust := [thrust_cmd, thrust_cmd, thrust_cmd], idx := 0 }
    | _, _, _ => .typeError

/-- The messages one call to calculate_trajectory places on the outbound
trajectory topic: one message when it reaches publish_trajectory, none
otherwise. -/
def published (s : GuidanceState) : List CtlTraj :=
  match calculate_trajectory s with
  | .emit t => [t]
  | _ => []

/-- Embedding of mavros_state_callback (lines 108 to 133): overwrite all
seven current_state slots from the message, the attitude slots through the
external Euler extraction passed as the function euler, the airspeed slot
with the Euclidean norm of the linear velocity. The call then runs
calculate_trajectory; the state mutation is this function, the emission is
the function published above. -/
def mavros_state_callback (euler : ℝ → ℝ → ℝ → ℝ → ℝ × ℝ × ℝ)
    (s : GuidanceState) (msg : OdomMsg) : GuidanceState :=
  let e := euler msg.qx msg.qy msg.qz msg.qw
  { s with
    x := some msg.px, y := some msg.py, z := some msg.pz,
    phi := some e.1, theta := some e.2.1, psi := some e.2.2,
    airspeed := some (Real.sqrt (msg.vx ^ 2 + msg.vy ^ 2 + msg.vz ^ 2)) }

/-- The node states reachable from construction by any sequence of pose
callbacks, for a fixed external Euler extraction. -/
inductive Reachable (euler : ℝ → ℝ → ℝ → ℝ → ℝ × ℝ × ℝ) : GuidanceState → Prop where
  | init : Reachable euler initState
  | step (s : GuidanceState) (msg : OdomMsg) :
      Reachable euler s → Reachable euler (mavros_state_callback euler s msg)

/-- All seven current_state slots hold a value. -/
def fullyPopulated (s : GuidanceState) : Prop :=
  s.x ≠ none ∧ s.y ≠ none ∧ s.z ≠ none ∧ s.phi ≠ none ∧
  s.theta ≠ none ∧ s.psi ≠ none ∧ s.airspeed ≠ none

/-- The yaw array of an emitted message, none when nothing was emitted. -/
def TrajResult.yawOf : TrajResult → Option (List ℝ)
  | .emit t => some t.yaw
  | _ => none

/-- The pitch array of an emitted message, none when nothing was emitted. -/
def TrajResult.pitchOf : TrajResult → Option (List ℝ)
  | .emit t => some t.pitch
  | _ => none

/-- The roll array of an emitted message, none when nothing was emitted. -/
def TrajResult.rollOf : TrajResult → Option (List ℝ)
  | .emit t => some t.roll
  | _ => none

/-- The emitted message, or a given default when nothing was emitted. -/
def TrajResult.getD : TrajResult → CtlTraj → CtlTraj
  | .emit t, _ => t
  | _, d => d

/-- The concrete scenario of the spec end-to-end tests: vehicle at the
origin with zero attitude and speed, the constructed target. -/
def scenario1State : GuidanceState :=
  { target_x := -170, target_y := -170, target_z := 50,
    x := some 0, y := some 0, z := some 0,
    phi := some 0, theta := some 0, psi := some 0, airspeed := some 0 }

/-- For a positive divisor the Python modulo is nonnegative and below the
divisor. -/
lemma pymod_nonneg_lt (a b : ℝ) (hb : 0 < b) : 0 ≤ pymod a b ∧ pymod a b < b := by
  constructor
  · exact mul_nonneg hb.le (Int.fract_nonneg _)
  · have h := mul_lt_mul_of_pos_left (Int.fract_lt_one (a / b)) hb
    simpa [pymod] using h

/-- Closed form of wrap_to_pi: the input minus the floored number of full
turns times two pi. -/
lemma wrap_to_pi_eq_sub_floor (a : ℝ) :
    wrap_to_pi a = a - 2 * π * ⌊(a + π) / (2 * π)⌋ := by
  have h2π : (2 * π) ≠ 0 := by positivity
  unfold wrap_to_pi pymod
  rw [Int.fract]
  field_simp
  ring

/-- wrap_to_pi differs from its input by an integer multiple of two pi. -/
lemma wrap_to_pi_sub_int_mul (a : ℝ) : ∃ k : ℤ, wrap_to_pi a = a + 2 * π * k := by
  refine ⟨-⌊(a + π) / (2 * π)⌋, ?_⟩
  rw [wrap_to_pi_eq_sub_floor]
  push_cast
  ring

/-- wrap_to_pi lands in the half-open interval from minus pi to pi. -/
lemma wrap_to_pi_mem (a : ℝ) : -π ≤ wrap_to_pi a ∧ wrap_to_pi a < π := by
  have h := pymod_nonneg_lt (a + π) (2 * π) (by positivity)
  unfold wrap_to_pi
  constructor <;> linarith [h.1, h.2]

/-- wrap_to_pi is invariant under shifting by integer multiples of two pi. -/
lemma wrap_to_pi_add_int_mul (a : ℝ) (k : ℤ) :
    wrap_to_pi (a + 2 * π * k) = wrap_to_pi a := by
  have h2π : (2 * π) ≠ 0 := by positivity
  unfold wrap_to_pi pymod
  have harg : (a + 2 * π * k + π) / (2 * π) = (a + π) / (2 * π) + k := by
    field_simp
    ring
  rw [harg, Int.fract_add_int]

/-- wrap_to_pi fixes angles already inside the interval. -/
lemma wrap_to_pi_eq_self (a : ℝ) (h1 : -π ≤ a) (h2 : a < π) : wrap_to_pi a = a := by
  have h2π : (0:ℝ) < 2 * π := by positivity
  have hlo : 0 ≤ (a + π) / (2 * π) := by
    apply div_nonneg _ h2π.le
    linarith
  have hhi : (a + π) / (2 * π) < 1 := by
    rw [div_lt_one h2π]
    linarith
  unfold wrap_to_pi pymod
  rw [Int.fract_eq_self.mpr ⟨hlo, hhi⟩]
  field_simp

/-- wrap_to_pi of zero is zero. -/
lemma wrap_to_pi_zero : wrap_to_pi 0 = 0 :=
  wrap_to_pi_eq_self 0 (by linarith [pi_pos]) pi_pos

/-- Reduction of calculate_trajectory on a state whose slots 0, 1, 2 and 5
are set: it emits whatever the remaining slots hold, since the computation
never reads them, and the message fields are the composed guidance
formulas. -/
lemma calculate_trajectory_full (tx ty tz sx sy sz q : ℝ) (op oth oa : Option ℝ) :
    calculate_trajectory
      { target_x := tx, target_y := ty, target_z := tz,
        x := some sx, y := some sy, z := some sz,
        phi := op, theta := oth, psi := some q, airspeed := oa } =
    .emit
      { roll :=
          [np_clip (0.5 * get_relative_ned_yaw_cmd (yaw_enu_to_ned q)
              (yaw_enu_to_ned (np_arctan2 (ty - sy) (tx - sx))))
              (-(np_deg2rad 45)) (np_deg2rad 45),
            np_clip (0.5 * get_relative_ned_yaw_cmd (yaw_enu_to_ned q)
              (yaw_enu_to_ned (np_arctan2 (ty - sy) (tx - sx))))
              (-(np_deg2rad 45)) (np_deg2rad 45)],
        pitch :=
          [np_clip (0.25 * (tz - sz)) (-(np_deg2rad 15)) (np_deg2rad 10),
            np_clip (0.25 * (tz - sz)) (-(np_deg2rad 15)) (np_deg2rad 10)],
        yaw :=
          [get_relative_ned_yaw_cmd (yaw_enu_to_ned q)
              (yaw_enu_to_ned (np_arctan2 (ty - sy) (tx - sx))),
            get_relative_ned_yaw_cmd (yaw_enu_to_ned q)
              (yaw_enu_to_ned (np_arctan2 (ty - sy) (tx - sx)))],
        thrust := [0.5, 0.5, 0.5], idx := 0 } := rfl

/-- C1: wrap_to_pi maps any real angle into the half-open interval from
minus pi to pi, differs from its input by an integer multiple of two pi, and
is the formula angle plus pi, modulo two pi with a true nonnegative modulo,
minus pi. -/
theorem C1_wrap_to_pi_correct (angle : ℝ) :
    (-π ≤ wrap_to_pi angle ∧ wrap_to_pi angle < π) ∧
    (∃ k : ℤ, wrap_to_pi angle = angle + 2 * π * k) ∧
    wrap_to_pi angle = pymod (angle + π) (2 * π) - π ∧
    (0 ≤ pymod (angle + π) (2 * π) ∧ pymod (angle + π) (2 * π) < 2 * π) :=
  ⟨wrap_to_pi_mem angle, wrap_to_pi_sub_int_mul angle, rfl,
    pymod_nonneg_lt _ _ (by positivity)⟩

/-- C2: yaw_enu_to_ned is an involution up to wrap equivalence: applying it
twice and subtracting the original angle wraps to zero. -/
theorem C2_yaw_enu_to_ned_involution (θ : ℝ) :
    wrap_to_pi (yaw_enu_to_ned (yaw_enu_to_ned θ) - θ) = 0 := by
  unfold yaw_enu_to_ned
  obtain ⟨k, hk⟩ := wrap_to_pi_sub_int_mul (π / 2 - θ)
  rw [hk]
  have h1 : π / 2 - (π / 2 - θ + 2 * π * k) = θ + 2 * π * ((-k : ℤ) : ℝ) := by
    push_cast
    ring
  rw [h1, wrap_to_pi_add_int_mul]
  obtain ⟨m, hm⟩ := wrap_to_pi_sub_int_mul θ
  rw [hm]
  have h2 : θ + 2 * π * (m : ℝ) - θ = 0 + 2 * π * (m : ℝ) := by ring
  rw [h2, wrap_to_pi_add_int_mul, wrap_to_pi_zero]

/-- C8: identical current and target NED headings give a zero relative yaw
command. -/
theorem C8_relative_yaw_same_heading (a : ℝ) : get_relative_ned_yaw_cmd a a = 0 := by
  unfold get_relative_ned_yaw_cmd
  rw [sub_self, wrap_to_pi_zero]

/-- A symmetric numpy clip bounds the absolute value by the bound. -/
lemma abs_np_clip_le (v c : ℝ) (hc : 0 ≤ c) : |np_clip v (-c) c| ≤ c := by
  rw [abs_le]
  exact ⟨le_min (le_max_right v (-c)) (by linarith), min_le_right _ c⟩

/-- A numpy clip with ordered bounds lands inside the bounds. -/
lemma np_clip_mem (v lo hi : ℝ) (h : lo ≤ hi) :
    lo ≤ np_clip v lo hi ∧ np_clip v lo hi ≤ hi :=
  ⟨le_min (le_max_right _ _) h, min_le_right _ _⟩

/-- The relative yaw command always lies in the wrap interval. -/
lemma get_relative_mem (cur cmd : ℝ) :
    -π ≤ get_relative_ned_yaw_cmd cur cmd ∧ get_relative_ned_yaw_cmd cur cmd < π :=
  wrap_to_pi_mem _

/-- The target bearing of the spec scenario: arctan2 of two equal negative
components is minus three quarters pi. -/
lemma np_arctan2_scenario :
    np_arctan2 ((-170 : ℝ) - 0) ((-170 : ℝ) - 0) = -(3 * π / 4) := by
  have h : ((-170 : ℝ) - 0) = -170 := by norm_num
  rw [h]
  unfold np_arctan2
  rw [if_neg (by norm_num), if_pos (by norm_num : (-170 : ℝ) < 0),
    if_neg (by norm_num : ¬ (0 : ℝ) ≤ -170)]
  rw [show ((-170 : ℝ)) / (-170) = 1 by norm_num, Real.arctan_one]
  ring

/-- An ENU yaw of zero, due east, is a NED yaw of pi over 2. -/
lemma yaw_enu_to_ned_zero : yaw_enu_to_ned 0 = π / 2 := by
  unfold yaw_enu_to_ned
  rw [sub_zero]
  exact wrap_to_pi_eq_self _ (by linarith [pi_pos]) (by linarith [pi_pos])

/-- The scenario bearing converts to the same value in NED. -/
lemma yaw_enu_to_ned_scenario : yaw_enu_to_ned (-(3 * π / 4)) = -(3 * π / 4) := by
  unfold yaw_enu_to_ned
  rw [show π / 2 - -(3 * π / 4) = -(3 * π / 4) + 2 * π * ((1 : ℤ) : ℝ) by push_cast; ring,
    wrap_to_pi_add_int_mul]
  exact wrap_to_pi_eq_self _ (by linarith [pi_pos]) (by linarith [pi_pos])

/-- The relative yaw command of the spec scenario evaluates to three
quarters pi. -/
lemma scenario1_rel_yaw :
    get_relative_ned_yaw_cmd (yaw_enu_to_ned 0)
      (yaw_enu_to_ned (np_arctan2 ((-170 : ℝ) - 0) ((-170 : ℝ) - 0))) = 3 * π / 4 := by
  rw [np_arctan2_scenario, yaw_enu_to_ned_scenario, yaw_enu_to_ned_zero]
  unfold get_relative_ned_yaw_cmd
  rw [show -(3 * π / 4) - π / 2 = 3 * π / 4 + 2 * π * ((-1 : ℤ) : ℝ) by push_cast; ring,
    wrap_to_pi_add_int_mul]
  exact wrap_to_pi_eq_self _ (by linarith [pi_pos]) (by linarith [pi_pos])

/-- The yaw array the scenario state emits, as the raw guidance formula. -/
lemma scenario1_yaw_field :
    TrajResult.yawOf (calculate_trajectory scenario1State) =
      some [get_relative_ned_yaw_cmd (yaw_enu_to_ned 0)
          (yaw_enu_to_ned (np_arctan2 ((-170 : ℝ) - 0) ((-170 : ℝ) - 0))),
        get_relative_ned_yaw_cmd (yaw_enu_to_ned 0)
          (yaw_enu_to_ned (np_arctan2 ((-170 : ℝ) - 0) ((-170 : ℝ) - 0)))] := rfl

/-- The pitch array the scenario state emits, as the raw guidance formula. -/
lemma scenario1_pitch_field :
    TrajResult.pitchOf (calculate_trajectory scenario1State) =
      some [np_clip (0.25 * ((50 : ℝ) - 0)) (-(np_deg2rad 15)) (np_deg2rad 10),
        np_clip (0.25 * ((50 : ℝ) - 0)) (-(np_deg2rad 15)) (np_deg2rad 10)] := rfl

/-- The scenario pitch clip saturates at the upper bound: the raw command
12.5 radians exceeds 10 degrees in radians. -/
lemma scenario1_pitch_val :
    np_clip (0.25 * ((50 : ℝ) - 0)) (-(np_deg2rad 15)) (np_deg2rad 10) = np_deg2rad 10 := by
  unfold np_clip np_deg2rad
  have hπ : π < 3.15 := pi_lt_d2
  have h1 : (10 : ℝ) * (π / 180) ≤ 0.25 * ((50 : ℝ) - 0) := by linarith
  have h2 : -((15 : ℝ) * (π / 180)) ≤ 0.25 * ((50 : ℝ) - 0) := by linarith [pi_pos]
  rw [max_eq_left h2, min_eq_right h1]

/-- C3 counterexample: in the spec scenario, vehicle at the origin with ENU
yaw 0 and target (-170, -170, 50), the emitted relative yaw command is
3 pi over 4, whose magnitude is not pi over 4 and misses it by pi over 2. -/
theorem C3_counterexample_relyaw_magnitude :
    TrajResult.yawOf (calculate_trajectory scenario1State) =
      some [3 * π / 4, 3 * π / 4] ∧
    |3 * π / 4| ≠ π / 4 ∧ |3 * π / 4| - π / 4 = π / 2 := by
  have habs : |3 * π / 4| = 3 * π / 4 := abs_of_nonneg (by positivity)
  refine ⟨?_, ?_, ?_⟩
  · rw [scenario1_yaw_field, scenario1_rel_yaw]
  · rw [habs]
    intro h
    have := pi_pos
    linarith [h]
  · rw [habs]
    ring

/-- C3 amended: in the spec scenario the bearing in ENU is minus 3 pi over
4, the emitted relative yaw command is plus 3 pi over 4 with magnitude 3 pi
over 4, and its sign points the vehicle at the target: the current NED yaw
advanced by the command wraps to the target NED bearing. -/
theorem C3_amended_scenario1 :
    np_arctan2 ((-170 : ℝ) - 0) ((-170 : ℝ) - 0) = -(3 * π / 4) ∧
    TrajResult.yawOf (calculate_trajectory scenario1State) =
      some [3 * π / 4, 3 * π / 4] ∧
    0 < 3 * π / 4 ∧
    wrap_to_pi (yaw_enu_to_ned 0 + 3 * π / 4 -
      yaw_enu_to_ned (np_arctan2 ((-170 : ℝ) - 0) ((-170 : ℝ) - 0))) = 0 := by
  refine ⟨np_arctan2_scenario, ?_, by positivity, ?_⟩
  · rw [scenario1_yaw_field, scenario1_rel_yaw]
  · rw [np_arctan2_scenario, yaw_enu_to_ned_scenario, yaw_enu_to_ned_zero]
    rw [show π / 2 + 3 * π / 4 - -(3 * π / 4) = 0 + 2 * π * ((1 : ℤ) : ℝ) by
      push_cast; ring]
    rw [wrap_to_pi_add_int_mul, wrap_to_pi_zero]

/-- C4 counterexample: with dz = 50, vehicle z = 0 and target z = 50, the
pitch command is the upper clamp bound of plus 10 degrees in radians, which
is positive and not the lower bound of minus 15 degrees. -/
theorem C4_counterexample_pitch_bound :
    TrajResult.pitchOf (calculate_trajectory scenario1State) =
      some [np_deg2rad 10, np_deg2rad 10] ∧
    np_deg2rad 10 ≠ -(np_deg2rad 15) ∧ 0 < np_deg2rad 10 := by
  have h10 : 0 < np_deg2rad 10 := by unfold np_deg2rad; positivity
  have h15 : 0 < np_deg2rad 15 := by unfold np_deg2rad; positivity
  refine ⟨?_, ?_, h10⟩
  · rw [scenario1_pitch_field, scenario1_pitch_val]
  · intro h
    linarith [h10, h15, h.le]

/-- C4 amended: with dz = 50 the unclamped pitch command 0.25 times 50
exceeds the upper bound, so the emitted pitch command saturates at plus 10
degrees in radians. -/
theorem C4_amended_pitch_saturates_upper :
    TrajResult.pitchOf (calculate_trajectory scenario1State) =
      some [np_deg2rad 10, np_deg2rad 10] ∧
    np_deg2rad 10 < 0.25 * ((50 : ℝ) - 0) := by
  constructor
  · rw [scenario1_pitch_field, scenario1_pitch_val]
  · unfold np_deg2rad
    linarith [pi_lt_d2]

/-- C5: on any fully populated vehicle state the emitted roll command is
the clip of 0.5 times the relative yaw command to plus and minus 45 degrees
in radians, so its absolute value is at most 45 degrees in radians. -/
theorem C5_roll_clamped (tx ty tz sx sy sz p th q a : ℝ) :
    TrajResult.rollOf (calculate_trajectory
      { target_x := tx, target_y := ty, target_z := tz,
        x := some sx, y := some sy, z := some sz,
        phi := some p, theta := some th, psi := some q, airspeed := some a }) =
      some [np_clip (0.5 * get_relative_ned_yaw_cmd (yaw_enu_to_ned q)
          (yaw_enu_to_ned (np_arctan2 (ty - sy) (tx - sx))))
          (-(np_deg2rad 45)) (np_deg2rad 45),
        np_clip (0.5 * get_relative_ned_yaw_cmd (yaw_enu_to_ned q)
          (yaw_enu_to_ned (np_arctan2 (ty - sy) (tx - sx))))
          (-(np_deg2rad 45)) (np_deg2rad 45)] ∧
    |np_clip (0.5 * get_relative_ned_yaw_cmd (yaw_enu_to_ned q)
        (yaw_enu_to_ned (np_arctan2 (ty - sy) (tx - sx))))
        (-(np_deg2rad 45)) (np_deg2rad 45)| ≤ np_deg2rad 45 :=
  ⟨rfl, abs_np_clip_le _ _ (by unfold np_deg2rad; positivity)⟩

/-- C6: on any fully populated vehicle state the emitted pitch command is
the clip of 0.25 times the vertical error to the asymmetric interval from
minus 15 to plus 10 degrees in radians, so it lies in that interval. -/
theorem C6_pitch_clamped (tx ty tz sx sy sz p th q a : ℝ) :
    TrajResult.pitchOf (calculate_trajectory
      { target_x := tx, target_y := ty, target_z := tz,
        x := some sx, y := some sy, z := some sz,
        phi := some p, theta := some th, psi := some q, airspeed := some a }) =
      some [np_clip (0.25 * (tz - sz)) (-(np_deg2rad 15)) (np_deg2rad 10),
        np_clip (0.25 * (tz - sz)) (-(np_deg2rad 15)) (np_deg2rad 10)] ∧
    -(np_deg2rad 15) ≤ np_clip (0.25 * (tz - sz)) (-(np_deg2rad 15)) (np_deg2rad 10) ∧
    np_clip (0.25 * (tz - sz)) (-(np_deg2rad 15)) (np_deg2rad 10) ≤ np_deg2rad 10 :=
  ⟨rfl, np_clip_mem _ _ _ (by unfold np_deg2rad; nlinarith [pi_pos])⟩

/-- C7: while the first current_state slot is still None, one call of
calculate_trajectory takes the early return and places nothing on the
outbound topic. -/
theorem C7_uninitialized_no_command (s : GuidanceState) (h : s.x = none) :
    calculate_trajectory s = .noCommand ∧ published s = [] := by
  have hc : calculate_trajectory s = .noCommand := by
    unfold calculate_trajectory
    rw [h]
  refine ⟨hc, ?_⟩
  unfold published
  rw [hc]

/-- Witness for C7 at the constructed initial state. -/
theorem C7_witness :
    initState.x = none ∧ calculate_trajectory initState = .noCommand ∧
    published initState = [] :=
  ⟨rfl, (C7_uninitialized_no_command initState rfl).1,
    (C7_uninitialized_no_command initState rfl).2⟩

/-- An emitted message implies the first slot held a value. -/
lemma emit_imp_x_set (s : GuidanceState) (t : CtlTraj)
    (h : calculate_trajectory s = .emit t) : s.x ≠ none := by
  intro hx
  rw [(C7_uninitialized_no_command s hx).1] at h
  exact TrajResult.noConfusion h

/-- C9: in every reachable controller state, a non-None first slot implies
all seven slots are populated, so a message is only ever emitted from a
fully populated state. -/
theorem C9_command_only_when_fully_populated
    (euler : ℝ → ℝ → ℝ → ℝ → ℝ × ℝ × ℝ) (s : GuidanceState)
    (h : Reachable euler s) :
    (s.x ≠ none → fullyPopulated s) ∧
    (∀ t : CtlTraj, calculate_trajectory s = .emit t → fullyPopulated s) := by
  have hmain : s.x ≠ none → fullyPopulated s := by
    induction h with
    | init => intro hx; exact absurd rfl hx
    | step s' msg hr ih =>
      intro _
      refine ⟨?_, ?_, ?_, ?_, ?_, ?_, ?_⟩ <;> simp [mavros_state_callback]
  exact ⟨hmain, fun t ht => hmain (emit_imp_x_set s t ht)⟩

/-- A concrete stand-in for the external Euler extraction utility. -/
def eulerZero : ℝ → ℝ → ℝ → ℝ → ℝ × ℝ × ℝ := fun _ _ _ _ => (0, 0, 0)

/-- Witness for C9 at the constructed initial state. -/
theorem C9_witness :
    (initState.x ≠ none → fullyPopulated initState) ∧
    (∀ t : CtlTraj, calculate_trajectory initState = .emit t →
      fullyPopulated initState) :=
  C9_command_only_when_fully_populated eulerZero initState Reachable.init

/-- C10: every emitted message carries the relative yaw command duplicated
in both yaw slots, and that value lies in the half-open interval from minus
pi to pi, being the raw output of wrap_to_pi. -/
theorem C10_yaw_field_in_range (s : GuidanceState) (t : CtlTraj)
    (h : calculate_trajectory s = .emit t) :
    t.yaw = [t.yaw.headI, t.yaw.headI] ∧
    -π ≤ t.yaw.headI ∧ t.yaw.headI < π := by
  obtain ⟨tx, ty, tz, ox, oy, oz, op, oth, oq, oa⟩ := s
  cases ox with
  | none => simp [calculate_trajectory] at h
  | some sx =>
    cases oy with
    | none => simp [calculate_trajectory] at h
    | some sy =>
      cases oz with
      | none => simp [calculate_trajectory] at h
      | some sz =>
        cases oq with
        | none => simp [calculate_trajectory] at h
        | some q =>
          rw [calculate_trajectory_full tx ty tz sx sy sz q op oth oa] at h
          injection h with h
          subst h
          exact ⟨rfl, (get_relative_mem _ _).1, (get_relative_mem _ _).2⟩

/-- A CtlTraj with empty arrays, used as the default of getD. -/
def emptyTraj : CtlTraj := { roll := [], pitch := [], yaw := [], thrust := [], idx := 0 }

/-- The message the scenario state emits. -/
def scenario1Traj : CtlTraj := (calculate_trajectory scenario1State).getD emptyTraj

/-- Witness for C10 at the spec scenario state. -/
theorem C10_witness :
    scenario1Traj.yaw = [scenario1Traj.yaw.headI, scenario1Traj.yaw.headI] ∧
    -π ≤ scenario1Traj.yaw.headI ∧ scenario1Traj.yaw.headI < π :=
  C10_yaw_field_in_range scenario1State scenario1Traj rfl

end
